import Mathlib

/-!
Verification of the tool-registry dispatch layer of the MCP demo server.

The registry core (registration, schema validation, dispatch, result
normalization) lives in the `mcp-go` SDK, outside this repository's sources;
the specification documents it at design level (spec sections 3, 4.1, 7), so
those operations are modelled from the spec.  The tool definitions and the
tool handler functions are embedded from `main.go`.
-/

namespace MCP

/-- Parameter kinds, spec section 3: one of string, number, boolean. -/
inductive ParamKind where
| stringK
| numberK
| booleanK
deriving DecidableEq

/-- The canonical numeric type of the argument layer (Go `float64`),
modelled as an exact fraction `n / d` with `d` positive in every value this
development constructs.  Claims about the calculator hold within
floating-point tolerance, which this exact model satisfies. -/
structure Num where
  n : Int
  d : Nat
deriving DecidableEq

/-- Embed an integer-shaped value into the canonical numeric type. -/
def Num.fromInt (i : Int) : Num := ⟨i, 1⟩

/-- The zero test the calculator's division guard performs (`y == 0`). -/
def Num.isZero (a : Num) : Bool := a.n = 0

/-- Is the value negative? -/
def Num.isNeg (a : Num) : Bool := a.n < 0

/-- Exact addition. -/
def Num.add (a b : Num) : Num := ⟨a.n * b.d + b.n * a.d, a.d * b.d⟩

/-- Exact subtraction. -/
def Num.sub (a b : Num) : Num := ⟨a.n * b.d - b.n * a.d, a.d * b.d⟩

/-- Exact multiplication. -/
def Num.mul (a b : Num) : Num := ⟨a.n * b.n, a.d * b.d⟩

/-- Reciprocal, keeping the denominator positive; `inv 0 = 0`. -/
def Num.inv (a : Num) : Num :=
  if a.n < 0 then ⟨-(a.d : Int), a.n.natAbs⟩
  else if a.n = 0 then ⟨0, 1⟩
  else ⟨(a.d : Int), a.n.natAbs⟩

/-- Exact division (the calculator guards the zero divisor before this). -/
def Num.div (a b : Num) : Num := a.mul b.inv

instance : Add Num := ⟨Num.add⟩
instance : Sub Num := ⟨Num.sub⟩
instance : Mul Num := ⟨Num.mul⟩
instance : Div Num := ⟨Num.div⟩

/-- Raw JSON-compatible values as they arrive in `rawArguments`.  An
integer-shaped and a floating-shaped numeric literal are distinguished at
this surface level; validation coerces both to the canonical numeric type. -/
inductive RawValue where
| rstr (s : String)
| rint (i : Int)
| rfloat (q : Num)
| rbool (b : Bool)
deriving DecidableEq

/-- Typed values stored in a validated ArgumentSet. -/
inductive TValue where
| tstr (s : String)
| tnum (q : Num)
| tbool (b : Bool)
deriving DecidableEq

/-- Modelled from the spec: ParameterSpec, spec section 3.  `dflt` is the
optional default used when the parameter is absent and not required; `enum`
is the optional set of allowed values (string kind only), empty meaning
unconstrained. -/
structure ParameterSpec where
  name : String
  kind : ParamKind
  required : Bool
  dflt : Option TValue
  enum : List String
deriving DecidableEq

/-- ToolResult, spec section 3: tagged union Success or Failure. -/
inductive ToolResult where
| success (text : String)
| failure (message : String)
deriving DecidableEq

/-- Boolean failure discriminator on a ToolResult. -/
def ToolResult.isFailure : ToolResult → Bool
| .success _ => false
| .failure _ => true

/-- Outcome of running a handler body: either a returned ToolResult, or an
uncaught fault (a Go panic / unexpected error) that the registry boundary
must recover from (spec section 7, handler errors). -/
inductive HandlerOutcome where
| ok (r : ToolResult)
| fault (msg : String)

/-- File system model for the file handlers: directories and regular files,
each carrying a permission mode (as in `os.MkdirAll` / `os.WriteFile`).
Paths are lists of path components. -/
structure FS where
  dirs : List (List String × Nat)
  files : List (List String × String × Nat)
deriving DecidableEq

/-- The execution environment a handler runs in: the file system, a network
oracle telling whether a TCP dial to host/port succeeds, a clock reading, an
oracle for the out-of-scope external collaborators (HTTP, database, search,
spec section 1), and a log of attempted network connections. -/
structure World where
  fs : FS
  net : String → Nat → Bool
  now : String
  ext : String → HandlerOutcome
  connLog : List (String × Nat)

/-- Untyped raw argument mapping (decoded JSON object). -/
abbrev RawArgs := List (String × RawValue)

/-- Validated, typed argument mapping, spec section 3. -/
abbrev ArgumentSet := List (String × TValue)

/-- A handler takes a validated ArgumentSet and the world, returns an
outcome and the possibly changed world. -/
abbrev Handler := ArgumentSet → World → HandlerOutcome × World

/-- ToolDefinition, spec section 3. -/
structure ToolDefinition where
  name : String
  description : String
  parameters : List ParameterSpec
  handler : Handler

/-- The registry: named tool definitions in registration order. -/
abbrev Registry := List ToolDefinition

/-- Association lookup in a raw argument mapping. -/
def lookupRaw (raw : RawArgs) (n : String) : Option RawValue :=
  match raw with
  | [] => none
  | kv :: rest => if kv.fst = n then some kv.snd else lookupRaw rest n

/-- Association lookup in a validated argument set. -/
def lookupArg (args : ArgumentSet) (n : String) : Option TValue :=
  match args with
  | [] => none
  | kv :: rest => if kv.fst = n then some kv.snd else lookupArg rest n

/-- Modelled from the spec: validation error taxonomy, spec section 7. -/
inductive ValidationError where
| missingParameter (n : String)
| typeMismatch (n : String)
| invalidEnumValue (n : String) (v : String)
deriving DecidableEq

/-- Render a validation error as the Failure message text. -/
def renderVError : ValidationError → String
| .missingParameter n => "MissingParameter: " ++ n
| .typeMismatch n => "TypeMismatch: " ++ n
| .invalidEnumValue n v => "InvalidEnumValue: " ++ n ++ " = " ++ v

/-- Modelled from the spec: per-parameter shape check and coercion, spec
section 4.1 step 3.  A numeric parameter accepts an integer-shaped or a
floating-shaped value and coerces both to the canonical numeric type; an
enum-constrained string parameter checks membership. -/
def validateParam (p : ParameterSpec) (v : RawValue) : Except ValidationError TValue :=
  match p.kind, v with
  | .stringK, .rstr s =>
      match p.enum with
      | [] => .ok (.tstr s)
      | es => if s ∈ es then .ok (.tstr s) else .error (.invalidEnumValue p.name s)
  | .numberK, .rint i => .ok (.tnum (Num.fromInt i))
  | .numberK, .rfloat q => .ok (.tnum q)
  | .booleanK, .rbool b => .ok (.tbool b)
  | _, _ => .error (.typeMismatch p.name)

/-- Modelled from the spec: one step of the validation algorithm of spec
section 4.1 for a single declared parameter, given the outcome for the
remaining parameters.  A failure at this parameter takes precedence over
anything later, realizing declaration-order reporting. -/
def validateStep (p : ParameterSpec) (raw : RawArgs)
    (acc : Except ValidationError ArgumentSet) : Except ValidationError ArgumentSet :=
  match lookupRaw raw p.name with
  | none =>
      if p.required then .error (.missingParameter p.name)
      else
        match p.dflt with
        | some d => acc.map (fun args => (p.name, d) :: args)
        | none => acc
  | some v =>
      match validateParam p v with
      | .error e => .error e
      | .ok t => acc.map (fun args => (p.name, t) :: args)

/-- Modelled from the spec: the validation algorithm of spec section 4.1,
applied in parameter declaration order.  Missing required parameters fail,
absent optional parameters take their default or stay unset, present values
are shape-checked, and keys not declared in the parameter list are never
read, so they are not passed through. -/
def validate (ps : List ParameterSpec) (raw : RawArgs) : Except ValidationError ArgumentSet :=
  ps.foldr (fun p acc => validateStep p raw acc) (.ok [])

/-- Look a tool up by name, first registered wins. -/
def findTool (r : Registry) (n : String) : Option ToolDefinition :=
  match r with
  | [] => none
  | d :: rest => if d.name = n then some d else findTool rest n

/-- Modelled from the spec: registration error taxonomy, spec section 7. -/
inductive RegistrationError where
| duplicateName (n : String)
| invalidDefinition
deriving DecidableEq

/-- Modelled from the spec: `Register`, spec section 4.1.  Fails with
DuplicateName when the name is already registered, leaving the registry as
it was; a malformed (empty-name) definition is also rejected. -/
def register (r : Registry) (d : ToolDefinition) : Except RegistrationError Registry :=
  if r.any (fun t => t.name = d.name) then .error (.duplicateName d.name)
  else if d.name = "" then .error .invalidDefinition
  else .ok (r ++ [d])

/-- Modelled from the spec: `Invoke`, spec sections 4.1 and 7.  Resolves the
tool, validates the raw arguments, dispatches to the handler, and converts
every outcome — unknown tool, validation error, handler failure, handler
fault — into a returned ToolResult, so nothing escapes the registry
boundary. -/
def invoke (r : Registry) (n : String) (raw : RawArgs) (w : World) : ToolResult × World :=
  match findTool r n with
  | none => (.failure ("UnknownTool: " ++ n), w)
  | some d =>
    match validate d.parameters raw with
    | .error e => (.failure (renderVError e), w)
    | .ok args =>
      match d.handler args w with
      | (.ok res, w2) => (res, w2)
      | (.fault msg, w2) => (.failure ("recovered from handler fault: " ++ msg), w2)

/-- Modelled from the spec: the SDK accessor `RequireString` used inside the
handlers; on the validated ArgumentSet it returns the string value or an
error naming the parameter. -/
def requireString (args : ArgumentSet) (n : String) : Except String String :=
  match lookupArg args n with
  | some (.tstr s) => .ok s
  | some _ => .error ("argument " ++ n ++ " has the wrong type")
  | none => .error ("required argument " ++ n ++ " not found")

/-- Modelled from the spec: the SDK accessor `RequireFloat`, returning the
canonical numeric value or an error naming the parameter. -/
def requireFloat (args : ArgumentSet) (n : String) : Except String Num :=
  match lookupArg args n with
  | some (.tnum q) => .ok q
  | some _ => .error ("argument " ++ n ++ " has the wrong type")
  | none => .error ("required argument " ++ n ++ " not found")

/-- Modelled from the spec: the SDK accessor `GetString` with a fallback. -/
def getString (args : ArgumentSet) (n : String) (fallback : String) : String :=
  match lookupArg args n with
  | some (.tstr s) => s
  | _ => fallback

/-- Modelled from the spec: the SDK accessor `GetFloat` with a fallback. -/
def getFloat (args : ArgumentSet) (n : String) (fallback : Num) : Num :=
  match lookupArg args n with
  | some (.tnum q) => q
  | _ => fallback

/-- Modelled from the spec: the SDK accessor `GetBool` with a fallback. -/
def getBool (args : ArgumentSet) (n : String) (fallback : Bool) : Bool :=
  match lookupArg args n with
  | some (.tbool b) => b
  | _ => fallback

/-- Rendering of the Go format verb `%.2f` on the canonical numeric type:
two decimal digits, rounding the half-cent up in magnitude.  (Go rounds the
binary float's exact value to nearest; the two agree on every value used in
this development.) -/
def fmt2 (x : Num) : String :=
  let na : Nat := x.n.natAbs
  let cents : Nat := (na * 200 + x.d) / (2 * x.d)
  let whole : Nat := cents / 100
  let frac : Nat := cents % 100
  let fracStr : String := if frac < 10 then "0" ++ toString frac else toString frac
  (if x.isNeg then "-" else "") ++ toString whole ++ "." ++ fracStr

/-- Split a character list at every occurrence of a separator character. -/
def splitOnChar (sep : Char) : List Char → List (List Char)
  | [] => [[]]
  | c :: rest =>
    if c = sep then [] :: splitOnChar sep rest
    else
      match splitOnChar sep rest with
      | [] => [[c]]
      | g :: gs => (c :: g) :: gs

/-- Split a path string into its components, as the file handlers hand paths
to the OS layer. -/
def pathComponents (s : String) : List String :=
  ((splitOnChar '/' s.data).map (fun cs => String.mk cs)).filter (fun c => c ≠ "" && c ≠ ".")

/-- The parent directory of a path, as computed by `filepath.Dir` in
`handleWriteFile`. -/
def parentDir (s : String) : List String := (pathComponents s).dropLast

/-- Does this directory exist in the file system?  The root always does. -/
def hasDir (fs : FS) (p : List String) : Bool :=
  p.isEmpty || fs.dirs.any (fun d => d.fst = p)

/-- Does this regular file exist in the file system? -/
def hasFile (fs : FS) (p : List String) : Bool :=
  fs.files.any (fun f => f.fst = p)

/-- Worker for `mkdirAll`: walk the remaining components, creating each
still-missing ancestor directory with the given mode, failing when a
component already exists as a regular file. -/
def mkdirGo (mode : Nat) (fs : FS) (done rest : List String) : Except String FS :=
  match rest with
  | [] => .ok fs
  | c :: more =>
    if hasFile fs (done ++ [c]) then
      .error ("mkdir " ++ String.intercalate "/" (done ++ [c]) ++ ": not a directory")
    else
      mkdirGo mode
        (if hasDir fs (done ++ [c]) then fs
         else ⟨fs.dirs ++ [(done ++ [c], mode)], fs.files⟩)
        (done ++ [c]) more

/-- Model of `os.MkdirAll`: create every missing ancestor of `dir` (and
`dir` itself) with the given permission mode. -/
def mkdirAll (fs : FS) (dir : List String) (mode : Nat) : Except String FS :=
  mkdirGo mode fs [] dir

/-- Model of `os.WriteFile`: create or overwrite a regular file with the
given content and permission mode; fails when the path is empty, names an
existing directory, or its parent directory does not exist. -/
def writeFileFS (fs : FS) (p : List String) (content : String) (mode : Nat) : Except String FS :=
  if p.isEmpty then .error "open : no such file or directory"
  else if hasDir fs p then .error (String.intercalate "/" p ++ ": is a directory")
  else if hasDir fs p.dropLast then
    .ok ⟨fs.dirs, (p, content, mode) :: fs.files.filter (fun f => f.fst ≠ p)⟩
  else .error ("open " ++ String.intercalate "/" p ++ ": no such file or directory")

/-- Model of `os.ReadFile`: the content of an existing regular file. -/
def readFileFS (fs : FS) (p : List String) : Except String String :=
  match fs.files.find? (fun f => f.fst = p) with
  | some f => .ok f.snd.fst
  | none => .error ("open " ++ String.intercalate "/" p ++ ": no such file or directory")

/-- Modelled from the spec: `parsePortList` is called by the network monitor
handler but its definition is absent from the sources; the `ports` parameter
is documented as comma-separated ports and dash ranges (for example
80,443,8080-8090), which this parser accepts. -/
def parsePortList (s : String) : List Nat :=
  (s.splitOn ",").foldr
    (fun piece acc =>
      match piece.splitOn "-" with
      | [a] =>
          match a.trim.toNat? with
          | some x => x :: acc
          | none => acc
      | [a, b] =>
          match a.trim.toNat?, b.trim.toNat? with
          | some x, some y => (List.range (y + 1 - x)).map (fun k => x + k) ++ acc
          | _, _ => acc
      | _ => acc)
    []

/-- Quote a string as a JSON string literal (escaping abstracted). -/
def jstr (s : String) : String := "\"" ++ s ++ "\""

/-- Render an object of already-rendered field values, keys in the sorted
order Go's JSON marshalling uses; indentation is abstracted. -/
def renderFields (fields : List (String × String)) : String :=
  "\x7b" ++ String.intercalate ", " (fields.map (fun f => jstr f.fst ++ ": " ++ f.snd)) ++ "\x7d"

/-- Embedded from `main.go` `handleCalculator`: extract the operation and the
two operands, branch on the operation, guard division by zero, and format
the result with `%.2f`. -/
def handleCalculator : Handler := fun args w =>
  match requireString args "operation" with
  | .error e => (.ok (.failure e), w)
  | .ok operation =>
  match requireFloat args "x" with
  | .error e => (.ok (.failure e), w)
  | .ok x =>
  match requireFloat args "y" with
  | .error e => (.ok (.failure e), w)
  | .ok y =>
  match operation with
  | "add" =>
      (.ok (.success ("计算结果: " ++ fmt2 x ++ " add " ++ fmt2 y ++ " = " ++ fmt2 (x + y))), w)
  | "subtract" =>
      (.ok (.success ("计算结果: " ++ fmt2 x ++ " subtract " ++ fmt2 y ++ " = " ++ fmt2 (x - y))), w)
  | "multiply" =>
      (.ok (.success ("计算结果: " ++ fmt2 x ++ " multiply " ++ fmt2 y ++ " = " ++ fmt2 (x * y))), w)
  | "divide" =>
      if y.isZero then (.ok (.failure "除数不能为零"), w)
      else (.ok (.success ("计算结果: " ++ fmt2 x ++ " divide " ++ fmt2 y ++ " = " ++ fmt2 (x / y))), w)
  | _ => (.ok (.failure "不支持的运算"), w)

/-- Embedded from `main.go` `handleReadFile`: read the file at the given
path from the world's file system. -/
def handleReadFile : Handler := fun args w =>
  match requireString args "path" with
  | .error e => (.ok (.failure e), w)
  | .ok path =>
  match readFileFS w.fs (pathComponents path) with
  | .error e => (.ok (.failure ("读取文件失败: " ++ e)), w)
  | .ok content => (.ok (.success ("文件内容 (" ++ path ++ "):\n" ++ content)), w)

/-- Embedded from `main.go` `handleWriteFile`: ensure the parent directory
exists via `os.MkdirAll(dir, 0755)`, then write the file with
`os.WriteFile(path, content, 0644)`. -/
def handleWriteFile : Handler := fun args w =>
  match requireString args "path" with
  | .error e => (.ok (.failure e), w)
  | .ok path =>
  match requireString args "content" with
  | .error e => (.ok (.failure e), w)
  | .ok content =>
  match mkdirAll w.fs (parentDir path) 0o755 with
  | .error e => (.ok (.failure ("创建目录失败: " ++ e)), w)
  | .ok fs1 =>
  match writeFileFS fs1 (pathComponents path) content 0o644 with
  | .error e => (.ok (.failure ("写入文件失败: " ++ e)), { w with fs := fs1 })
  | .ok fs2 => (.ok (.success ("成功写入文件: " ++ path)), { w with fs := fs2 })

/-- Embedded from `main.go` `handleNetworkMonitor`: branch on the action;
ping dials port 80, port_scan requires a nonempty ports argument before
dialing each parsed port, trace_route returns fixed hops, anything else is
an unsupported action.  Every dial attempt is recorded in the world's
connection log; the JSON pretty-printing of the success payload is rendered
by `renderFields` with indentation abstracted. -/
def handleNetworkMonitor : Handler := fun args w =>
  match requireString args "target" with
  | .error e => (.ok (.failure e), w)
  | .ok target =>
  match requireString args "action" with
  | .error e => (.ok (.failure e), w)
  | .ok action =>
  let ports := getString args "ports" ""
  match action with
  | "ping" =>
      let reachable := w.net target 80
      let w2 := { w with connLog := w.connLog ++ [(target, 80)] }
      let fields :=
        if reachable then
          [("action", jstr action), ("response_time", jstr "< 5s"),
           ("status", jstr "reachable"), ("target", jstr target), ("timestamp", jstr w.now)]
        else
          [("action", jstr action), ("error", jstr "dial tcp: i/o timeout"),
           ("status", jstr "unreachable"), ("target", jstr target), ("timestamp", jstr w.now)]
      (.ok (.success ("🌐 网络监控结果:\n" ++ renderFields fields)), w2)
  | "port_scan" =>
      if ports = "" then (.ok (.failure "端口扫描需要指定端口"), w)
      else
        let portList := parsePortList ports
        let portResults := portList.map (fun pt =>
          renderFields [("port", toString pt),
                        ("status", if w.net target pt then jstr "open" else jstr "closed")])
        let w2 := { w with connLog := w.connLog ++ portList.map (fun pt => (target, pt)) }
        (.ok (.success ("🌐 网络监控结果:\n" ++ renderFields
           [("action", jstr action),
            ("ports", "[" ++ String.intercalate ", " portResults ++ "]"),
            ("target", jstr target), ("timestamp", jstr w.now)])), w2)
  | "trace_route" =>
      (.ok (.success ("🌐 网络监控结果:\n" ++ renderFields
         [("action", jstr action), ("target", jstr target), ("timestamp", jstr w.now),
          ("trace", "[" ++
             renderFields [("address", jstr "gateway"), ("hop", "1"), ("time", jstr "1ms")] ++ ", " ++
             renderFields [("address", jstr target), ("hop", "2"), ("time", jstr "10ms")] ++ "]")])), w)
  | _ => (.ok (.failure "不支持的网络监控动作"), w)

/-- Embedded from `main.go` `handleWebSearch`: require the query, branch on
the engine; the HTTP search call itself is an out-of-scope external
collaborator (spec section 1) consulted through the world's oracle. -/
def handleWebSearch : Handler := fun args w =>
  match requireString args "query" with
  | .error e => (.ok (.failure e), w)
  | .ok _query =>
  let engine := getString args "engine" "google"
  let _limit := getFloat args "limit" (Num.fromInt 10)
  match engine with
  | "google" => (w.ext "web_search", w)
  | "bing" => (w.ext "web_search", w)
  | "duckduckgo" => (w.ext "web_search", w)
  | _ => (.ok (.failure "不支持的搜索引擎"), w)

/-- Embedded from `main.go` `handleDatabaseQuery` up to its required
arguments; the database access is an external collaborator (spec section 1)
consulted through the world's oracle. -/
def handleDatabaseQuery : Handler := fun args w =>
  match requireString args "connection_string" with
  | .error e => (.ok (.failure e), w)
  | .ok _ =>
  match requireString args "driver" with
  | .error e => (.ok (.failure e), w)
  | .ok _ =>
  match requireString args "query" with
  | .error e => (.ok (.failure e), w)
  | .ok _ => (w.ext "database_query", w)

/-- Embedded from `main.go` `handleHTTPRequest` up to its required argument;
the HTTP round trip is an external collaborator consulted through the
world's oracle. -/
def handleHTTPRequest : Handler := fun args w =>
  match requireString args "url" with
  | .error e => (.ok (.failure e), w)
  | .ok _ => (w.ext "http_request", w)

/-- Embedded from `main.go` `handleFileAnalysis` up to its required
argument; the stat, hashing and content inspection are file-system side
effects consulted through the world's oracle. -/
def handleFileAnalysis : Handler := fun args w =>
  match requireString args "path" with
  | .error e => (.ok (.failure e), w)
  | .ok _ => (w.ext "analyze_file", w)

/-- Embedded from `main.go` `handleDirectoryScan` up to its required
argument; the walk is consulted through the world's oracle. -/
def handleDirectoryScan : Handler := fun args w =>
  match requireString args "path" with
  | .error e => (.ok (.failure e), w)
  | .ok _ => (w.ext "scan_directory", w)

/-- Embedded from `main.go` `handleDataProcess` up to its required
arguments; parsing and processing are consulted through the world's
oracle. -/
def handleDataProcess : Handler := fun args w =>
  match requireString args "data" with
  | .error e => (.ok (.failure e), w)
  | .ok _ =>
  match requireString args "format" with
  | .error e => (.ok (.failure e), w)
  | .ok _ =>
  match requireString args "operation" with
  | .error e => (.ok (.failure e), w)
  | .ok _ => (w.ext "process_data", w)

/-- Embedded from `main.go` `handleSystemInfo`: reads process state, an
external collaborator consulted through the world's oracle. -/
def handleSystemInfo : Handler := fun _args w => (w.ext "system_info", w)

/-- Embedded from `main.go` `handleCurrentTime`: time-zone loading and the
clock are external collaborators consulted through the world's oracle. -/
def handleCurrentTime : Handler := fun _args w => (w.ext "current_time", w)

/-- Modelled from the spec: `handleCodeAnalysis` is registered in `main.go`
but its body is absent from the sources; an out-of-scope external
collaborator per spec section 1. -/
def handleCodeAnalysis : Handler := fun _args w => (w.ext "analyze_code", w)

/-- Modelled from the spec: `handleSystemMonitor` is registered in `main.go`
but its body is absent from the sources; an out-of-scope external
collaborator per spec section 1. -/
def handleSystemMonitor : Handler := fun _args w => (w.ext "system_monitor", w)

/-- Calculator parameter `operation` (required, enum add, subtract,
multiply, divide), from `registerTools` in `main.go`. -/
def calcOperationSpec : ParameterSpec :=
  ⟨"operation", .stringK, true, none, ["add", "subtract", "multiply", "divide"]⟩

/-- Calculator parameter `x` (required number), from `registerTools`. -/
def calcXSpec : ParameterSpec := ⟨"x", .numberK, true, none, []⟩

/-- Calculator parameter `y` (required number), from `registerTools`. -/
def calcYSpec : ParameterSpec := ⟨"y", .numberK, true, none, []⟩

/-- The calculator tool definition from `registerTools` in `main.go`. -/
def calculatorTool : ToolDefinition :=
  ⟨"calculator", "执行基本数学运算", [calcOperationSpec, calcXSpec, calcYSpec], handleCalculator⟩

/-- The read_file tool definition from `registerTools`. -/
def fileReadTool : ToolDefinition :=
  ⟨"read_file", "读取文件内容", [⟨"path", .stringK, true, none, []⟩], handleReadFile⟩

/-- The write_file tool definition from `registerTools`. -/
def fileWriteTool : ToolDefinition :=
  ⟨"write_file", "写入文件内容",
   [⟨"path", .stringK, true, none, []⟩, ⟨"content", .stringK, true, none, []⟩],
   handleWriteFile⟩

/-- The http_request tool definition from `registerTools`. -/
def httpTool : ToolDefinition :=
  ⟨"http_request", "发送HTTP请求",
   [⟨"url", .stringK, true, none, []⟩,
    ⟨"method", .stringK, false, some (.tstr "GET"), ["GET", "POST", "PUT", "DELETE"]⟩,
    ⟨"body", .stringK, false, none, []⟩],
   handleHTTPRequest⟩

/-- The system_info tool definition from `registerTools`. -/
def systemInfoTool : ToolDefinition := ⟨"system_info", "获取系统信息", [], handleSystemInfo⟩

/-- The current_time tool definition from `registerTools`. -/
def timeTool : ToolDefinition :=
  ⟨"current_time", "获取当前时间",
   [⟨"format", .stringK, false, some (.tstr "2006-01-02 15:04:05"), []⟩,
    ⟨"timezone", .stringK, false, some (.tstr "Local"), []⟩],
   handleCurrentTime⟩

/-- The web_search tool definition from `registerAdvancedTools`. -/
def webSearchTool : ToolDefinition :=
  ⟨"web_search", "执行实时网络搜索",
   [⟨"query", .stringK, true, none, []⟩,
    ⟨"engine", .stringK, false, some (.tstr "google"), ["google", "bing", "duckduckgo"]⟩,
    ⟨"results", .numberK, false, some (.tnum (Num.fromInt 10)), []⟩],
   handleWebSearch⟩

/-- The database_query tool definition from `registerAdvancedTools`. -/
def dbQueryTool : ToolDefinition :=
  ⟨"database_query", "执行数据库查询",
   [⟨"connection_string", .stringK, true, none, []⟩,
    ⟨"driver", .stringK, true, none, ["mysql", "postgres", "sqlite3"]⟩,
    ⟨"query", .stringK, true, none, []⟩],
   handleDatabaseQuery⟩

/-- The analyze_file tool definition from `registerAdvancedTools`. -/
def fileAnalysisTool : ToolDefinition :=
  ⟨"analyze_file", "深度分析文件信息",
   [⟨"path", .stringK, true, none, []⟩,
    ⟨"analysis_type", .stringK, false, some (.tstr "comprehensive"),
     ["basic", "comprehensive", "security", "content"]⟩],
   handleFileAnalysis⟩

/-- The scan_directory tool definition from `registerAdvancedTools`. -/
def dirScanTool : ToolDefinition :=
  ⟨"scan_directory", "扫描目录结构和文件信息",
   [⟨"path", .stringK, true, none, []⟩,
    ⟨"recursive", .booleanK, false, some (.tbool true), []⟩,
    ⟨"filter", .stringK, false, none, []⟩,
    ⟨"max_depth", .numberK, false, some (.tnum (Num.fromInt 5)), []⟩],
   handleDirectoryScan⟩

/-- The network_monitor tool definition from `registerAdvancedTools`. -/
def networkMonitorTool : ToolDefinition :=
  ⟨"network_monitor", "网络连接和端口监控",
   [⟨"target", .stringK, true, none, []⟩,
    ⟨"action", .stringK, true, none, ["ping", "port_scan", "trace_route"]⟩,
    ⟨"ports", .stringK, false, none, []⟩],
   handleNetworkMonitor⟩

/-- The process_data tool definition from `registerAdvancedTools`. -/
def dataProcessTool : ToolDefinition :=
  ⟨"process_data", "处理和分析结构化数据",
   [⟨"data", .stringK, true, none, []⟩,
    ⟨"format", .stringK, true, none, ["json", "csv", "xml"]⟩,
    ⟨"operation", .stringK, true, none, ["analyze", "filter", "transform", "aggregate"]⟩,
    ⟨"parameters", .stringK, false, none, []⟩],
   handleDataProcess⟩

/-- The analyze_code tool definition from `registerAdvancedTools`. -/
def codeAnalysisTool : ToolDefinition :=
  ⟨"analyze_code", "分析代码质量和结构",
   [⟨"path", .stringK, true, none, []⟩,
    ⟨"language", .stringK, false, none, ["go", "python", "javascript", "java", "cpp", "auto"]⟩,
    ⟨"analysis_type", .stringK, false, some (.tstr "quality"),
     ["quality", "complexity", "security", "dependencies"]⟩],
   handleCodeAnalysis⟩

/-- The system_monitor tool definition from `registerAdvancedTools`. -/
def systemMonitorTool : ToolDefinition :=
  ⟨"system_monitor", "系统资源监控",
   [⟨"metric", .stringK, true, none, ["cpu", "memory", "disk", "network", "processes", "all"]⟩,
    ⟨"duration", .numberK, false, some (.tnum (Num.fromInt 5)), []⟩],
   handleSystemMonitor⟩

/-- The registration sequence of `registerTools` in `main.go`, expressed
through the spec's `Register` operation. -/
def registerBasicTools (r : Registry) : Except RegistrationError Registry :=
  register r calculatorTool >>= fun r => register r fileReadTool >>= fun r =>
  register r fileWriteTool >>= fun r => register r httpTool >>= fun r =>
  register r systemInfoTool >>= fun r => register r timeTool

/-- The registration sequence of `registerAdvancedTools` in `main.go`. -/
def registerAdvancedTools (r : Registry) : Except RegistrationError Registry :=
  register r webSearchTool >>= fun r => register r dbQueryTool >>= fun r =>
  register r fileAnalysisTool >>= fun r => register r dirScanTool >>= fun r =>
  register r networkMonitorTool >>= fun r => register r dataProcessTool >>= fun r =>
  register r codeAnalysisTool >>= fun r => register r systemMonitorTool

/-- The full startup registration performed by `main`. -/
def buildRegistry : Except RegistrationError Registry :=
  registerBasicTools [] >>= registerAdvancedTools

/-- The registry state after `main`'s registration phase. -/
def mainRegistry : Registry :=
  [calculatorTool, fileReadTool, fileWriteTool, httpTool, systemInfoTool, timeTool,
   webSearchTool, dbQueryTool, fileAnalysisTool, dirScanTool, networkMonitorTool,
   dataProcessTool, codeAnalysisTool, systemMonitorTool]

/-- The startup registration succeeds and yields `mainRegistry`: all
fourteen tool names are distinct. -/
theorem buildRegistry_ok : buildRegistry = .ok mainRegistry := rfl

/-- Does the second character list occur at the start of the first? -/
def prefixEq (sub hay : List Char) : Bool :=
  match sub, hay with
  | [], _ => true
  | _ :: _, [] => false
  | a :: as, b :: bs => a = b && prefixEq as bs

/-- Does `sub` occur contiguously anywhere in `hay`? -/
def occurs (sub hay : List Char) : Bool :=
  match hay with
  | [] => sub.isEmpty
  | _ :: rest => prefixEq sub hay || occurs sub rest

/-- Substring test on strings, used to state that a failure message contains
a parameter name. -/
def strContains (hay sub : String) : Bool := occurs sub.data hay.data

/-- A canonical world: empty file system, no reachable network peer, a fixed
clock, external collaborators that fault, and an empty connection log. -/
def w0 : World :=
  ⟨⟨[], []⟩, fun _ _ => false, "2026-01-01T00:00:00Z", fun t => .fault ("external collaborator: " ++ t), []⟩

/-- C1: for every registry, tool name, raw argument mapping and world,
`invoke` returns an ordinary ToolResult — a Success or a Failure; unknown
tools, validation errors, handler failures and recovered handler faults are
all delivered through this single seam, and nothing escapes the registry
boundary. -/
theorem invoke_always_returns_toolresult (r : Registry) (n : String) (raw : RawArgs) (w : World) :
    (∃ m, (invoke r n raw w).fst = ToolResult.failure m) ∨
    (∃ t, (invoke r n raw w).fst = ToolResult.success t) := by
  cases h : (invoke r n raw w).fst with
  | success t => exact Or.inr ⟨t, rfl⟩
  | failure m => exact Or.inl ⟨m, rfl⟩

/-- C2: invoking the calculator with operation divide, x = 10, y = 0 yields
the Failure 除数不能为零 (the divisor must not be zero) in every world, the
world unchanged — no crash, no propagated fault. -/
theorem calculator_divide_by_zero (w : World) :
    invoke mainRegistry "calculator"
      [("operation", .rstr "divide"), ("x", .rint 10), ("y", .rint 0)] w
      = (.failure "除数不能为零", w) := rfl

/-- C6: invoking the calculator with operation add, x = 15.5, y = 24.3
yields Success whose text reports 39.80, in every world. -/
theorem calculator_add_half (w : World) :
    invoke mainRegistry "calculator"
      [("operation", .rstr "add"), ("x", .rfloat ⟨155, 10⟩), ("y", .rfloat ⟨243, 10⟩)] w
      = (.success "计算结果: 15.50 add 24.30 = 39.80", w) := rfl

/-- C10: a network_monitor call with action port_scan and the optional
ports argument absent, or present but empty, returns the Failure
端口扫描需要指定端口 (port scan requires ports to be specified); the world —
in particular its connection log — is unchanged, so no network connection
was attempted.  This holds for every target and every world. -/
theorem network_monitor_port_scan_requires_ports (w : World) (target : String) :
    invoke mainRegistry "network_monitor"
      [("target", .rstr target), ("action", .rstr "port_scan")] w
      = (.failure "端口扫描需要指定端口", w)
    ∧ invoke mainRegistry "network_monitor"
        [("target", .rstr target), ("action", .rstr "port_scan"), ("ports", .rstr "")] w
      = (.failure "端口扫描需要指定端口", w) := ⟨rfl, rfl⟩

/-- Success discriminator on Except values. -/
def isOkE {ε α : Type} : Except ε α → Bool
| .ok _ => true
| .error _ => false

theorem isOkE_map {ε α β : Type} (f : α → β) (e : Except ε α) :
    isOkE (e.map f) = isOkE e := by cases e <;> rfl

/-- Unfolding of `validate` on a cons cell: the declared parameter is
processed in front of the rest. -/
theorem validate_cons (p : ParameterSpec) (ps : List ParameterSpec) (raw : RawArgs) :
    validate (p :: ps) raw = validateStep p raw (validate ps raw) := rfl

/-- Validation distributes over an appended parameter list. -/
theorem validate_append (xs ys : List ParameterSpec) (raw : RawArgs) :
    validate (xs ++ ys) raw
      = xs.foldr (fun p acc => validateStep p raw acc) (validate ys raw) := by
  simp [validate, List.foldr_append]

theorem validateStep_missing (p : ParameterSpec) (raw : RawArgs)
    (acc : Except ValidationError ArgumentSet)
    (hl : lookupRaw raw p.name = none) (hr : p.required = true) :
    validateStep p raw acc = .error (.missingParameter p.name) := by
  simp [validateStep, hl, hr]

theorem validateStep_default (p : ParameterSpec) (raw : RawArgs)
    (acc : Except ValidationError ArgumentSet) (d : TValue)
    (hl : lookupRaw raw p.name = none) (hr : p.required = false) (hd : p.dflt = some d) :
    validateStep p raw acc = acc.map (fun args => (p.name, d) :: args) := by
  simp [validateStep, hl, hr, hd]

theorem validateStep_skip (p : ParameterSpec) (raw : RawArgs)
    (acc : Except ValidationError ArgumentSet)
    (hl : lookupRaw raw p.name = none) (hr : p.required = false) (hd : p.dflt = none) :
    validateStep p raw acc = acc := by
  simp [validateStep, hl, hr, hd]

theorem validateStep_badval (p : ParameterSpec) (raw : RawArgs)
    (acc : Except ValidationError ArgumentSet) (v : RawValue) (e : ValidationError)
    (hl : lookupRaw raw p.name = some v) (hv : validateParam p v = .error e) :
    validateStep p raw acc = .error e := by
  simp [validateStep, hl, hv]

theorem validateStep_goodval (p : ParameterSpec) (raw : RawArgs)
    (acc : Except ValidationError ArgumentSet) (v : RawValue) (t : TValue)
    (hl : lookupRaw raw p.name = some v) (hv : validateParam p v = .ok t) :
    validateStep p raw acc = acc.map (fun args => (p.name, t) :: args) := by
  simp [validateStep, hl, hv]

/-- When a parameter list validates successfully on its own, folding its
steps over an error outcome reproduces that error: none of its parameters
can override a failure arising later in declaration order. -/
theorem foldr_error_of_ok (raw : RawArgs) (pre : List ParameterSpec)
    (h : isOkE (validate pre raw) = true) (e : ValidationError) :
    pre.foldr (fun p acc => validateStep p raw acc) (.error e) = .error e := by
  induction pre with
  | nil => rfl
  | cons q pre ih =>
    rw [validate_cons] at h
    simp only [List.foldr_cons]
    cases hl : lookupRaw raw q.name with
    | none =>
      cases hr : q.required with
      | true => rw [validateStep_missing q raw _ hl hr] at h; cases h
      | false =>
        cases hd : q.dflt with
        | some d =>
          rw [validateStep_default q raw _ d hl hr hd] at h
          rw [isOkE_map] at h
          rw [validateStep_default q raw _ d hl hr hd, ih h]
          rfl
        | none =>
          rw [validateStep_skip q raw _ hl hr hd] at h
          rw [validateStep_skip q raw _ hl hr hd]
          exact ih h
    | some v =>
      cases hv : validateParam q v with
      | error e2 => rw [validateStep_badval q raw _ v e2 hl hv] at h; cases h
      | ok t =>
        rw [validateStep_goodval q raw _ v t hl hv] at h
        rw [isOkE_map] at h
        rw [validateStep_goodval q raw _ v t hl hv, ih h]
        rfl

/-- A required parameter that is absent from the raw arguments makes the
whole validation fail with its MissingParameter error, provided the
parameters declared before it validate successfully. -/
theorem validate_missing_required (pre post : List ParameterSpec) (p : ParameterSpec)
    (raw : RawArgs) (hreq : p.required = true) (habs : lookupRaw raw p.name = none)
    (hpre : isOkE (validate pre raw) = true) :
    validate (pre ++ p :: post) raw = .error (.missingParameter p.name) := by
  rw [validate_append]
  have hp : validate (p :: post) raw = .error (.missingParameter p.name) := by
    rw [validate_cons]
    simp [validateStep, habs, hreq]
  rw [hp]
  exact foldr_error_of_ok raw pre hpre _

theorem prefixEq_self (l : List Char) : prefixEq l l = true := by
  induction l with
  | nil => rfl
  | cons c l ih => simp [prefixEq, ih]

theorem occurs_at_end (sub pre : List Char) : occurs sub (pre ++ sub) = true := by
  induction pre with
  | nil =>
    cases sub with
    | nil => rfl
    | cons c l => simp [occurs, prefixEq_self]
  | cons c pre ih => simp [occurs, ih]

theorem data_append (s t : String) : (s ++ t).data = s.data ++ t.data := rfl

/-- A string contains its own final segment: `pre ++ s` contains `s`. -/
theorem strContains_append_right (pre s : String) : strContains (pre ++ s) s = true := by
  unfold strContains
  rw [data_append]
  exact occurs_at_end s.data pre.data

/-- C3 counterexample: the claim fails as universally stated.  The
calculator's parameter x is required, and it is absent from the empty raw
argument mapping, yet `invoke` reports the first missing parameter in
declaration order — operation — and that Failure message does not contain
the name x. -/
theorem calculator_missing_x_names_operation :
    (invoke mainRegistry "calculator" [] w0).fst = .failure "MissingParameter: operation"
    ∧ strContains "MissingParameter: operation" "x" = false
    ∧ calcXSpec.required = true
    ∧ calcXSpec ∈ calculatorTool.parameters := by
  refine ⟨rfl, rfl, rfl, ?_⟩
  simp [calculatorTool]

/-- Folding validation steps over an error outcome never produces a
success: some validation error survives, though possibly an earlier one. -/
theorem isOkE_foldr_error (raw : RawArgs) (e : ValidationError) :
    ∀ pre : List ParameterSpec,
      isOkE (pre.foldr (fun p acc => validateStep p raw acc) (.error e)) = false := by
  intro pre
  induction pre with
  | nil => rfl
  | cons q pre ih =>
    simp only [List.foldr_cons]
    cases hl : lookupRaw raw q.name with
    | none =>
      cases hr : q.required with
      | true => rw [validateStep_missing q raw _ hl hr]; rfl
      | false =>
        cases hd : q.dflt with
        | some d => rw [validateStep_default q raw _ d hl hr hd, isOkE_map]; exact ih
        | none => rw [validateStep_skip q raw _ hl hr hd]; exact ih
    | some v =>
      cases hv : validateParam q v with
      | error e2 => rw [validateStep_badval q raw _ v e2 hl hv]; rfl
      | ok t => rw [validateStep_goodval q raw _ v t hl hv, isOkE_map]; exact ih

/-- C3 (amended): for every registered tool and required parameter p absent
from the raw arguments, validation fails and `invoke` returns a Failure —
the handler's domain logic is never reached; when additionally every
parameter declared before p validates successfully, the Failure is p's
MissingParameter error, whose message contains p's name.  (When an earlier
parameter already fails, the Failure instead names that parameter.) -/
theorem invoke_missing_required_param (nm : String) (d : ToolDefinition) (p : ParameterSpec)
    (pre post : List ParameterSpec) (raw : RawArgs) (w : World)
    (hfind : findTool mainRegistry nm = some d)
    (hsplit : d.parameters = pre ++ p :: post)
    (hreq : p.required = true)
    (habs : lookupRaw raw p.name = none) :
    isOkE (validate d.parameters raw) = false
    ∧ ((invoke mainRegistry nm raw w).fst).isFailure = true
    ∧ (isOkE (validate pre raw) = true →
        invoke mainRegistry nm raw w = (.failure ("MissingParameter: " ++ p.name), w)
        ∧ strContains ("MissingParameter: " ++ p.name) p.name = true) := by
  have hfail : isOkE (validate d.parameters raw) = false := by
    rw [hsplit, validate_append, validate_cons,
      validateStep_missing p raw _ habs hreq]
    exact isOkE_foldr_error raw _ pre
  refine ⟨hfail, ?_, ?_⟩
  · cases hval : validate d.parameters raw with
    | ok args => rw [hval] at hfail; cases hfail
    | error e => simp [invoke, hfind, hval, ToolResult.isFailure]
  · intro hpre
    have hv : validate d.parameters raw = .error (.missingParameter p.name) := by
      rw [hsplit]
      exact validate_missing_required pre post p raw hreq habs hpre
    constructor
    · simp [invoke, hfind, hv, renderVError]
    · exact strContains_append_right "MissingParameter: " p.name

/-- Witness for C3 (amended): the calculator invoked without x fails, and —
the earlier parameter operation being valid — the message contains x. -/
theorem invoke_missing_required_param_witness :
    isOkE (validate calculatorTool.parameters [("operation", .rstr "add"), ("y", .rint 1)]) = false
    ∧ ((invoke mainRegistry "calculator" [("operation", .rstr "add"), ("y", .rint 1)] w0).fst).isFailure
        = true
    ∧ (isOkE (validate [calcOperationSpec] [("operation", .rstr "add"), ("y", .rint 1)]) = true →
        invoke mainRegistry "calculator" [("operation", .rstr "add"), ("y", .rint 1)] w0
          = (.failure ("MissingParameter: " ++ "x"), w0)
        ∧ strContains ("MissingParameter: " ++ "x") "x" = true) :=
  invoke_missing_required_param "calculator" calculatorTool calcXSpec
    [calcOperationSpec] [calcYSpec] [("operation", .rstr "add"), ("y", .rint 1)] w0
    rfl rfl rfl rfl

/-- Every key of a successfully validated ArgumentSet is the name of a
declared parameter: undeclared keys of the raw mapping are never read, so
none can be retained. -/
theorem validate_keys_mem (raw : RawArgs) :
    ∀ (ps : List ParameterSpec) (args : ArgumentSet), validate ps raw = .ok args →
      ∀ kv ∈ args, ∃ p ∈ ps, p.name = kv.fst := by
  intro ps
  induction ps with
  | nil =>
    intro args h kv hkv
    simp only [validate, List.foldr_nil] at h
    injection h with h
    subst h
    cases hkv
  | cons q ps ih =>
    intro args h kv hkv
    rw [validate_cons] at h
    cases hl : lookupRaw raw q.name with
    | none =>
      cases hr : q.required with
      | true => rw [validateStep_missing q raw _ hl hr] at h; cases h
      | false =>
        cases hd : q.dflt with
        | some dv =>
          rw [validateStep_default q raw _ dv hl hr hd] at h
          cases hrec : validate ps raw with
          | error e => rw [hrec] at h; cases h
          | ok args2 =>
            rw [hrec] at h
            injection h with h
            subst h
            rcases List.mem_cons.mp hkv with h2 | h2
            · subst h2; exact ⟨q, List.mem_cons_self q ps, rfl⟩
            · obtain ⟨p, hp, he⟩ := ih args2 hrec kv h2
              exact ⟨p, List.mem_cons_of_mem q hp, he⟩
        | none =>
          rw [validateStep_skip q raw _ hl hr hd] at h
          obtain ⟨p, hp, he⟩ := ih args h kv hkv
          exact ⟨p, List.mem_cons_of_mem q hp, he⟩
    | some v =>
      cases hv : validateParam q v with
      | error e => rw [validateStep_badval q raw _ v e hl hv] at h; cases h
      | ok t =>
        rw [validateStep_goodval q raw _ v t hl hv] at h
        cases hrec : validate ps raw with
        | error e => rw [hrec] at h; cases h
        | ok args2 =>
          rw [hrec] at h
          injection h with h
          subst h
          rcases List.mem_cons.mp hkv with h2 | h2
          · subst h2; exact ⟨q, List.mem_cons_self q ps, rfl⟩
          · obtain ⟨p, hp, he⟩ := ih args2 hrec kv h2
            exact ⟨p, List.mem_cons_of_mem q hp, he⟩

/-- C4: for every registered tool, the ArgumentSet produced by validation —
the one `invoke` hands to the handler — retains no key outside the tool's
declared parameter names; undeclared raw keys are rejected (ignored). -/
theorem invoke_retains_only_declared_keys (nm : String) (d : ToolDefinition)
    (raw : RawArgs) (args : ArgumentSet)
    (hfind : findTool mainRegistry nm = some d)
    (hval : validate d.parameters raw = .ok args) :
    args.all (fun kv => d.parameters.any (fun p => p.name == kv.fst)) = true := by
  rw [List.all_eq_true]
  intro kv hkv
  obtain ⟨p, hp, he⟩ := validate_keys_mem raw d.parameters args hval kv hkv
  simp only [List.any_eq_true]
  exact ⟨p, hp, by simp [he]⟩

/-- Witness for C4: a calculator call carrying an undeclared key extra
validates to an ArgumentSet without it, and every retained key is a
declared parameter name. -/
theorem invoke_retains_only_declared_keys_witness :
    validate calculatorTool.parameters
        [("operation", .rstr "add"), ("x", .rint 1), ("y", .rint 2), ("extra", .rstr "junk")]
      = .ok [("operation", .tstr "add"), ("x", .tnum (Num.fromInt 1)), ("y", .tnum (Num.fromInt 2))]
    ∧ ([("operation", .tstr "add"), ("x", .tnum (Num.fromInt 1)),
        ("y", .tnum (Num.fromInt 2))] : ArgumentSet).all
        (fun kv => calculatorTool.parameters.any (fun p => p.name == kv.fst)) = true :=
  ⟨rfl, invoke_retains_only_declared_keys "calculator" calculatorTool
    [("operation", .rstr "add"), ("x", .rint 1), ("y", .rint 2), ("extra", .rstr "junk")]
    [("operation", .tstr "add"), ("x", .tnum (Num.fromInt 1)), ("y", .tnum (Num.fromInt 2))]
    rfl rfl⟩

/-- Is this raw value inside the parameter's declared enum set?  Only a
string-shaped value can be. -/
def enumAllowed (p : ParameterSpec) (v : RawValue) : Bool :=
  match v with
  | .rstr s => decide (s ∈ p.enum)
  | _ => false

/-- A present parameter whose value fails its own shape check makes the
whole validation fail, wherever the parameter sits in declaration order. -/
theorem validate_fails_of_bad_param (raw : RawArgs) :
    ∀ (ps : List ParameterSpec) (p : ParameterSpec) (v : RawValue), p ∈ ps →
      lookupRaw raw p.name = some v → isOkE (validateParam p v) = false →
      isOkE (validate ps raw) = false := by
  intro ps
  induction ps with
  | nil => intro p v hp _ _; cases hp
  | cons q ps ih =>
    intro p v hp hl hbad
    rw [validate_cons]
    rcases List.mem_cons.mp hp with h2 | h2
    · subst h2
      cases hv : validateParam p v with
      | error e => rw [validateStep_badval p raw _ v e hl hv]; rfl
      | ok t => rw [hv] at hbad; cases hbad
    · have hrec := ih p v h2 hl hbad
      cases hlq : lookupRaw raw q.name with
      | none =>
        cases hr : q.required with
        | true => rw [validateStep_missing q raw _ hlq hr]; rfl
        | false =>
          cases hd : q.dflt with
          | some dv => rw [validateStep_default q raw _ dv hlq hr hd, isOkE_map]; exact hrec
          | none => rw [validateStep_skip q raw _ hlq hr hd]; exact hrec
      | some v2 =>
        cases hv2 : validateParam q v2 with
        | error e => rw [validateStep_badval q raw _ v2 e hlq hv2]; rfl
        | ok t => rw [validateStep_goodval q raw _ v2 t hlq hv2, isOkE_map]; exact hrec

/-- A value outside the declared enum set of a string parameter fails its
shape check. -/
theorem validateParam_not_allowed (p : ParameterSpec) (v : RawValue)
    (hkind : p.kind = .stringK) (henum : p.enum ≠ [])
    (hbad : enumAllowed p v = false) : isOkE (validateParam p v) = false := by
  rcases p with ⟨pn, pk, pr, pd, pe⟩
  dsimp only at hkind henum hbad
  subst hkind
  cases v with
  | rstr s =>
    cases pe with
    | nil => exact absurd rfl henum
    | cons e es =>
      have hs : ¬(s ∈ e :: es) := by
        simpa [enumAllowed] using hbad
      simp [validateParam, hs, isOkE]
  | rint i => rfl
  | rfloat q => rfl
  | rbool b => rfl

/-- A value inside the declared enum set of a string parameter passes its
shape check unchanged. -/
theorem validateParam_allowed (p : ParameterSpec) (s : String)
    (hkind : p.kind = .stringK) (hs : s ∈ p.enum) :
    validateParam p (.rstr s) = .ok (.tstr s) := by
  rcases p with ⟨pn, pk, pr, pd, pe⟩
  dsimp only at hkind hs
  subst hkind
  cases pe with
  | nil => cases hs
  | cons e es => simp [validateParam, hs]

/-- C7: for every registered tool and every enum-constrained parameter,
`invoke` with a present value outside the declared enum set returns a
Failure, while a value inside the set passes that parameter's validation
(it does not by itself produce a Failure). -/
theorem enum_param_validation (nm : String) (d : ToolDefinition) (p : ParameterSpec)
    (hfind : findTool mainRegistry nm = some d)
    (hmem : p ∈ d.parameters)
    (hkind : p.kind = .stringK)
    (henum : p.enum ≠ []) :
    (∀ (raw : RawArgs) (v : RawValue) (w : World),
        lookupRaw raw p.name = some v → enumAllowed p v = false →
        ((invoke mainRegistry nm raw w).fst).isFailure = true)
    ∧ (∀ s ∈ p.enum, validateParam p (.rstr s) = .ok (.tstr s)) := by
  constructor
  · intro raw v w hl hbad
    have hfail := validate_fails_of_bad_param raw d.parameters p v hmem hl
      (validateParam_not_allowed p v hkind henum hbad)
    cases hval : validate d.parameters raw with
    | ok args => rw [hval] at hfail; cases hfail
    | error e => simp [invoke, hfind, hval, ToolResult.isFailure]
  · intro s hs
    exact validateParam_allowed p s hkind hs

/-- Witness for C7: the calculator's operation power is rejected as a
Failure, while operation add passes the parameter's validation. -/
theorem enum_param_validation_witness :
    ((invoke mainRegistry "calculator"
        [("operation", .rstr "power"), ("x", .rint 1), ("y", .rint 2)] w0).fst).isFailure = true
    ∧ validateParam calcOperationSpec (.rstr "add") = .ok (.tstr "add") := by
  have h := enum_param_validation "calculator" calculatorTool calcOperationSpec
    rfl (by simp [calculatorTool]) rfl (by simp [calcOperationSpec])
  exact ⟨h.1 [("operation", .rstr "power"), ("x", .rint 1), ("y", .rint 2)] (.rstr "power") w0
    rfl rfl, h.2 "add" (by simp [calcOperationSpec])⟩

/-- C8: for every registered tool and every numeric parameter, an
integer-shaped value and a floating-shaped value both validate successfully,
and both reach the handler as the same canonical numeric type (the `tnum`
payload of the ArgumentSet), the integer being coerced into it. -/
theorem numeric_param_coercion (nm : String) (d : ToolDefinition) (p : ParameterSpec)
    (hfind : findTool mainRegistry nm = some d)
    (hmem : p ∈ d.parameters)
    (hkind : p.kind = .numberK) (i : Int) (q : Num) :
    validateParam p (.rint i) = .ok (.tnum (Num.fromInt i))
    ∧ validateParam p (.rfloat q) = .ok (.tnum q) := by
  rcases p with ⟨pn, pk, pr, pd, pe⟩
  dsimp only at hkind
  subst hkind
  exact ⟨rfl, rfl⟩

/-- Witness for C8: the calculator's x accepts the integer 7 and the
fraction 3/2, both landing in the canonical numeric type. -/
theorem numeric_param_coercion_witness :
    validateParam calcXSpec (.rint 7) = .ok (.tnum (Num.fromInt 7))
    ∧ validateParam calcXSpec (.rfloat ⟨3, 2⟩) = .ok (.tnum ⟨3, 2⟩) :=
  numeric_param_coercion "calculator" calculatorTool calcXSpec rfl
    (by simp [calculatorTool]) rfl 7 ⟨3, 2⟩

/-- A name resolved by `findTool` is among the registered names. -/
theorem findTool_name_registered (r : Registry) (nm : String) (d : ToolDefinition) :
    findTool r nm = some d → r.any (fun t => t.name = nm) = true := by
  induction r with
  | nil => intro h; cases h
  | cons t r ih =>
    intro h
    by_cases ht : t.name = nm
    · simp [List.any_cons, ht]
    · simp only [findTool, ht, if_false] at h
      simp [List.any_cons, ht, ih h]

/-- C5: registering a second ToolDefinition under an already registered
name fails with DuplicateName and does not replace the first definition:
the registry value is unchanged (Register returns no new registry), so the
name still resolves to the first definition. -/
theorem register_duplicate_keeps_first (r : Registry) (nm : String) (d1 d2 : ToolDefinition)
    (hfound : findTool r nm = some d1) (hname : d2.name = nm) :
    register r d2 = .error (.duplicateName nm) ∧ findTool r nm = some d1 := by
  have hany : r.any (fun t => t.name = d2.name) = true := by
    rw [hname]
    exact findTool_name_registered r nm d1 hfound
  constructor
  · unfold register
    rw [if_pos hany, hname]
  · exact hfound

/-- A second definition reusing the calculator's registered name. -/
def calculatorToolDuplicate : ToolDefinition :=
  ⟨"calculator", "a second calculator definition", [], handleCalculator⟩

/-- Witness for C5: re-registering the name calculator against the startup
registry fails with DuplicateName, and the name still resolves to the
original calculator definition. -/
theorem register_duplicate_keeps_first_witness :
    register mainRegistry calculatorToolDuplicate = .error (.duplicateName "calculator")
    ∧ findTool mainRegistry "calculator" = some calculatorTool :=
  register_duplicate_keeps_first mainRegistry "calculator" calculatorTool
    calculatorToolDuplicate rfl rfl

/-- A directory present before more directories are appended is still
present. -/
theorem hasDir_append (fs : FS) (l : List (List String × Nat)) (fl : List (List String × String × Nat))
    (p : List String) (h : hasDir fs p = true) :
    hasDir ⟨fs.dirs ++ l, fl⟩ p = true := by
  unfold hasDir at h ⊢
  rcases Bool.or_eq_true_iff.mp h with h2 | h2
  · exact Bool.or_eq_true_iff.mpr (Or.inl h2)
  · refine Bool.or_eq_true_iff.mpr (Or.inr ?_)
    rw [List.any_append, h2]
    rfl

/-- `mkdirGo` never touches the regular files. -/
theorem mkdirGo_files (mode : Nat) :
    ∀ (rest done : List String) (fs fs2 : FS),
      mkdirGo mode fs done rest = .ok fs2 → fs2.files = fs.files := by
  intro rest
  induction rest with
  | nil =>
    intro done fs fs2 h
    injection h with h
    rw [← h]
  | cons c more ih =>
    intro done fs fs2 h
    unfold mkdirGo at h
    by_cases hf : hasFile fs (done ++ [c]) = true
    · rw [if_pos hf] at h; cases h
    · rw [if_neg hf] at h
      by_cases hd : hasDir fs (done ++ [c]) = true
      · rw [if_pos hd] at h
        exact ih _ _ _ h
      · rw [if_neg hd] at h
        exact ih (done ++ [c]) ⟨fs.dirs ++ [(done ++ [c], mode)], fs.files⟩ fs2 h

/-- Directories existing before `mkdirGo` still exist after it. -/
theorem mkdirGo_keeps_dirs (mode : Nat) :
    ∀ (rest done : List String) (fs fs2 : FS),
      mkdirGo mode fs done rest = .ok fs2 →
      ∀ p, hasDir fs p = true → hasDir fs2 p = true := by
  intro rest
  induction rest with
  | nil =>
    intro done fs fs2 h p hp
    injection h with h
    rw [← h]
    exact hp
  | cons c more ih =>
    intro done fs fs2 h p hp
    unfold mkdirGo at h
    by_cases hf : hasFile fs (done ++ [c]) = true
    · rw [if_pos hf] at h; cases h
    · rw [if_neg hf] at h
      by_cases hd : hasDir fs (done ++ [c]) = true
      · rw [if_pos hd] at h
        exact ih _ _ _ h p hp
      · rw [if_neg hd] at h
        exact ih _ _ _ h p (hasDir_append fs _ _ p hp)

/-- After a successful `mkdirGo` starting from an existing directory, the
full target directory exists. -/
theorem mkdirGo_creates (mode : Nat) :
    ∀ (rest done : List String) (fs fs2 : FS),
      mkdirGo mode fs done rest = .ok fs2 →
      hasDir fs done = true → hasDir fs2 (done ++ rest) = true := by
  intro rest
  induction rest with
  | nil =>
    intro done fs fs2 h hp
    injection h with h
    rw [← h, List.append_nil]
    exact hp
  | cons c more ih =>
    intro done fs fs2 h hp
    unfold mkdirGo at h
    by_cases hf : hasFile fs (done ++ [c]) = true
    · rw [if_pos hf] at h; cases h
    · rw [if_neg hf] at h
      rw [show done ++ c :: more = (done ++ [c]) ++ more by simp]
      by_cases hd : hasDir fs (done ++ [c]) = true
      · rw [if_pos hd] at h
        exact ih _ _ _ h hd
      · rw [if_neg hd] at h
        refine ih _ _ _ h ?_
        unfold hasDir
        refine Bool.or_eq_true_iff.mpr (Or.inr ?_)
        rw [List.any_append]
        simp

/-- Every directory present after `mkdirGo` either predates it or was
created with the requested mode. -/
theorem mkdirGo_new_dirs_mode (mode : Nat) :
    ∀ (rest done : List String) (fs fs2 : FS),
      mkdirGo mode fs done rest = .ok fs2 →
      ∀ e ∈ fs2.dirs, e ∈ fs.dirs ∨ e.snd = mode := by
  intro rest
  induction rest with
  | nil =>
    intro done fs fs2 h e he
    injection h with h
    rw [← h] at he
    exact Or.inl he
  | cons c more ih =>
    intro done fs fs2 h e he
    unfold mkdirGo at h
    by_cases hf : hasFile fs (done ++ [c]) = true
    · rw [if_pos hf] at h; cases h
    · rw [if_neg hf] at h
      by_cases hd : hasDir fs (done ++ [c]) = true
      · rw [if_pos hd] at h
        exact ih _ _ _ h e he
      · rw [if_neg hd] at h
        rcases ih _ _ _ h e he with h2 | h2
        · rcases List.mem_append.mp h2 with h3 | h3
          · exact Or.inl h3
          · right
            rcases List.mem_singleton.mp h3 with rfl
            rfl
        · exact Or.inr h2

/-- A successful `os.WriteFile` keeps the directories and records the file
with its content and mode. -/
theorem writeFileFS_ok (fs : FS) (p : List String) (content : String) (mode : Nat) (fs2 : FS)
    (h : writeFileFS fs p content mode = .ok fs2) :
    fs2.dirs = fs.dirs ∧ (p, content, mode) ∈ fs2.files := by
  unfold writeFileFS at h
  by_cases h1 : p.isEmpty = true
  · rw [if_pos h1] at h; cases h
  · rw [if_neg h1] at h
    by_cases h2 : hasDir fs p = true
    · rw [if_pos h2] at h; cases h
    · rw [if_neg h2] at h
      by_cases h3 : hasDir fs p.dropLast = true
      · rw [if_pos h3] at h
        injection h with h
        rw [← h]
        exact ⟨rfl, List.mem_cons_self _ _⟩
      · rw [if_neg h3] at h; cases h

/-- C9: a write_file call whose directory creation and file write both
succeed returns Success — in particular a path whose parent directory does
not yet exist is not a Failure — having created every missing parent
directory with mode 0755 before writing the file with mode 0644. -/
theorem write_file_creates_parents (w : World) (path content : String) (fs1 fs2 : FS)
    (hmk : mkdirAll w.fs (parentDir path) 0o755 = .ok fs1)
    (hwr : writeFileFS fs1 (pathComponents path) content 0o644 = .ok fs2) :
    invoke mainRegistry "write_file" [("path", .rstr path), ("content", .rstr content)] w
      = (.success ("成功写入文件: " ++ path), { w with fs := fs2 })
    ∧ (pathComponents path, content, 0o644) ∈ fs2.files
    ∧ hasDir fs2 (parentDir path) = true
    ∧ ∀ e ∈ fs2.dirs, e ∈ w.fs.dirs ∨ e.snd = 0o755 := by
  obtain ⟨hdirs, hmem⟩ := writeFileFS_ok fs1 (pathComponents path) content 0o644 fs2 hwr
  have hh : handleWriteFile [("path", .tstr path), ("content", .tstr content)] w
      = (.ok (.success ("成功写入文件: " ++ path)), { w with fs := fs2 }) := by
    show (match mkdirAll w.fs (parentDir path) 0o755 with
          | .error e => ((.ok (.failure ("创建目录失败: " ++ e)) : HandlerOutcome), w)
          | .ok g1 =>
            match writeFileFS g1 (pathComponents path) content 0o644 with
            | .error e => (.ok (.failure ("写入文件失败: " ++ e)), { w with fs := g1 })
            | .ok g2 => (.ok (.success ("成功写入文件: " ++ path)), { w with fs := g2 }))
        = (.ok (.success ("成功写入文件: " ++ path)), { w with fs := fs2 })
    rw [hmk]
    show (match writeFileFS fs1 (pathComponents path) content 0o644 with
          | .error e => ((.ok (.failure ("写入文件失败: " ++ e)) : HandlerOutcome), { w with fs := fs1 })
          | .ok g2 => (.ok (.success ("成功写入文件: " ++ path)), { w with fs := g2 }))
        = (.ok (.success ("成功写入文件: " ++ path)), { w with fs := fs2 })
    rw [hwr]
  have hdir1 : hasDir fs1 (parentDir path) = true := by
    have := mkdirGo_creates 0o755 (parentDir path) [] w.fs fs1 hmk rfl
    simpa using this
  refine ⟨?_, hmem, ?_, ?_⟩
  · have hfin : invoke mainRegistry "write_file"
        [("path", .rstr path), ("content", .rstr content)] w
        = (match handleWriteFile [("path", .tstr path), ("content", .tstr content)] w with
           | (.ok res, w2) => (res, w2)
           | (.fault m, w2) => (.failure ("recovered from handler fault: " ++ m), w2)) := rfl
    rw [hfin, hh]
  · unfold hasDir
    rw [hdirs]
    exact hdir1
  · intro e he
    rw [hdirs] at he
    exact mkdirGo_new_dirs_mode 0o755 (parentDir path) [] w.fs fs1 hmk e he

/-- Witness for C9: writing data/out.txt into an empty file system creates
the missing directory data with mode 0755 and writes the file with mode
0644, returning Success. -/
theorem write_file_creates_parents_witness :
    invoke mainRegistry "write_file"
        [("path", .rstr "data/out.txt"), ("content", .rstr "hello")] w0
      = (.success ("成功写入文件: " ++ "data/out.txt"),
         { w0 with fs := ⟨[(["data"], 0o755)], [(["data", "out.txt"], "hello", 0o644)]⟩ })
    ∧ (pathComponents "data/out.txt", "hello", 0o644)
        ∈ (⟨[(["data"], 0o755)], [(["data", "out.txt"], "hello", 0o644)]⟩ : FS).files
    ∧ hasDir ⟨[(["data"], 0o755)], [(["data", "out.txt"], "hello", 0o644)]⟩
        (parentDir "data/out.txt") = true
    ∧ ∀ e ∈ (⟨[(["data"], 0o755)], [(["data", "out.txt"], "hello", 0o644)]⟩ : FS).dirs,
        e ∈ w0.fs.dirs ∨ e.snd = 0o755 :=
  write_file_creates_parents w0 "data/out.txt" "hello"
    ⟨[(["data"], 0o755)], []⟩
    ⟨[(["data"], 0o755)], [(["data", "out.txt"], "hello", 0o644)]⟩
    rfl rfl

/-- Witness for C1 at a concrete registry, name, argument mapping and
world. -/
theorem invoke_always_returns_toolresult_witness :
    (∃ m, (invoke mainRegistry "nonexistent_tool" [] w0).fst = ToolResult.failure m) ∨
    (∃ t, (invoke mainRegistry "nonexistent_tool" [] w0).fst = ToolResult.success t) :=
  invoke_always_returns_toolresult mainRegistry "nonexistent_tool" [] w0

/-- Witness for C2 at the canonical world. -/
theorem calculator_divide_by_zero_witness :
    invoke mainRegistry "calculator"
      [("operation", .rstr "divide"), ("x", .rint 10), ("y", .rint 0)] w0
      = (.failure "除数不能为零", w0) :=
  calculator_divide_by_zero w0

/-- Witness for C6 at the canonical world. -/
theorem calculator_add_half_witness :
    invoke mainRegistry "calculator"
      [("operation", .rstr "add"), ("x", .rfloat ⟨155, 10⟩), ("y", .rfloat ⟨243, 10⟩)] w0
      = (.success "计算结果: 15.50 add 24.30 = 39.80", w0) :=
  calculator_add_half w0

/-- Witness for C10 at the canonical world and a concrete target. -/
theorem network_monitor_port_scan_requires_ports_witness :
    invoke mainRegistry "network_monitor"
      [("target", .rstr "example.com"), ("action", .rstr "port_scan")] w0
      = (.failure "端口扫描需要指定端口", w0)
    ∧ invoke mainRegistry "network_monitor"
        [("target", .rstr "example.com"), ("action", .rstr "port_scan"), ("ports", .rstr "")] w0
      = (.failure "端口扫描需要指定端口", w0) :=
  network_monitor_port_scan_requires_ports w0 "example.com"

end MCP
